import Mathlib

/-!
Verification development for the WinGamingDiag diagnostic pipeline.

Shallow embedding of the core data model (`src/models/__init__.py`), the
analysis engine (`src/core/analysis.py`) and the orchestrator
(`src/core/agent.py`, entry point `src/__main__.py`).

Modelling conventions:
* Python floats are modelled as rationals; every numeric literal and
  threshold appearing in the source is exactly representable.
* Python strings are Lean strings; the helpers below re-implement the
  string operations used by the source structurally, so that they are
  kernel-computable.
* `datetime.now()` and dates are modelled as integer day numbers; the
  current date is an explicit parameter of any function whose source
  reads the wall clock.
* Python `hash` on strings is deterministic within one process but
  seeded per process; it is modelled as an explicit function parameter.
* Optional fields are `Option`; Python truthiness tests on numbers and
  strings are translated as the corresponding non-zero / non-empty
  tests, exactly where the source tests truthiness.
* Issue `description`, `recommendation` and `evidence` are presentation
  strings never examined by any verified property and are not carried in
  the embedded `Issue` record; `id`, `title`, `category`, `severity` and
  `confidence` are carried.
-/

/-- Structural re-implementation of Python `str.lower` (ASCII data here). -/
def pyToLower (s : String) : String := ⟨s.data.map Char.toLower⟩

/-- Structural re-implementation of Python slicing `s[:n]`. -/
def pyTake (s : String) (n : Nat) : String := ⟨s.data.take n⟩

/-- Python `s.replace(c, r)` for a single-character pattern, as used by the source. -/
def pyReplaceChar (s : String) (c r : Char) : String :=
  ⟨s.data.map (fun a => if a = c then r else a)⟩

/-- Helper for substring search: does `sub` start the list `l`? -/
def charsLeadWith : List Char → List Char → Bool
  | [], _ => true
  | _ :: _, [] => false
  | a :: as, b :: bs => a = b && charsLeadWith as bs

/-- Helper for substring search: does `sub` occur inside `l`? -/
def charsContain (sub : List Char) : List Char → Bool
  | [] => charsLeadWith sub []
  | b :: bs => charsLeadWith sub (b :: bs) || charsContain sub bs

/-- Python `sub in s` substring containment. -/
def pyIn (sub s : String) : Bool := charsContain sub.data s.data

/-- Severity levels of `IssueSeverity` in `src/models/__init__.py`. -/
inductive IssueSeverity where
  | low
  | medium
  | high
  | critical
deriving DecidableEq, Repr

/-- Issue categories of `IssueCategory` in `src/models/__init__.py`. -/
inductive IssueCategory where
  | hardware
  | software
  | performance
  | stability
  | security
  | gaming
  | network
deriving DecidableEq, Repr

/-- The `Issue` dataclass, restricted to the fields examined by the verified
properties (`description`/`recommendation`/`evidence` are presentation
strings, and the time-salted id generated by `Issue.__post_init__` for an
empty `id` is not modelled: the analysis engine always passes explicit ids,
and no property reads the agent-side generated ids). -/
structure Issue where
  id : String
  title : String
  category : IssueCategory
  severity : IssueSeverity
  confidence : ℚ
deriving DecidableEq, Repr

/-- `CPUInfo`, restricted to the fields the embedded code reads. -/
structure CPUInfo where
  name : String
  virtualization_support : Bool
  temperature_celsius : Option ℚ
deriving DecidableEq, Repr

/-- `MemoryInfo`, restricted to the fields the embedded code reads. -/
structure MemoryInfo where
  total_gb : ℚ
  used_gb : ℚ
  available_gb : ℚ
  speed_mhz : Option Int
  type : Option String
deriving DecidableEq, Repr

/-- `GPUInfo`, restricted to the fields the embedded code reads.
`driver_date` is the parsed driver date as a day number: `none` covers an
absent, empty, or unparseable date string, each of which makes the
driver-age rule a no-op in the source (falsy test, or
`strptime` raising inside the `try`/`except: pass`). -/
structure GPUInfo where
  name : String
  manufacturer : String
  vram_mb : Int
  driver_version : String
  driver_date : Option Int
deriving DecidableEq, Repr

/-- `StorageInfo`, restricted to the fields the embedded code reads. -/
structure StorageInfo where
  model : String
  type : String
  total_gb : ℚ
  used_gb : ℚ
  free_gb : ℚ
  is_system_drive : Bool
deriving DecidableEq, Repr

/-- `HardwareSnapshot`, restricted to the fields the embedded code reads. -/
structure HardwareSnapshot where
  cpu : Option CPUInfo
  memory : Option MemoryInfo
  gpus : List GPUInfo
  storage_devices : List StorageInfo
deriving DecidableEq, Repr

/-- `WindowsInfo`: the four required constructor arguments plus the two
optional ones that `_collect_windows_info` populates. -/
structure WindowsInfo where
  version : String
  build : String
  edition : String
  architecture : String
  install_date : Option String
  activation_status : String
deriving DecidableEq, Repr

/-- An event-log entry, restricted to the `event_id` used by the
`app_crashes` property of `EventLogSummary`. -/
structure EventLogEntry where
  event_id : Int
deriving DecidableEq, Repr

/-- `EventLogSummary` from `src/collectors/event_logs.py`, restricted to the
fields the embedded code reads. -/
structure EventLogSummary where
  critical_count : Int
  recent_crashes : List EventLogEntry
  gaming_related_events : List EventLogEntry
  analysis_period_days : Int
deriving DecidableEq, Repr

/-- The `critical_errors` property of `EventLogSummary`. -/
def EventLogSummary.critical_errors (e : EventLogSummary) : Int := e.critical_count

/-- The `app_crashes` property of `EventLogSummary` (count of crash entries
with event id 1001). -/
def EventLogSummary.app_crashes (e : EventLogSummary) : Nat :=
  e.recent_crashes.countP (fun ev => ev.event_id = 1001)

/-- `DriverStatus` from `src/collectors/drivers.py`. -/
inductive DriverStatus where
  | up_to_date
  | update_available
  | outdated
  | unknown
  | critical
deriving DecidableEq, Repr

/-- `DriverInfo`, restricted to the fields the embedded code reads. -/
structure DriverInfo where
  name : String
  version : String
  status : DriverStatus
  latest_version : Option String
  update_url : Option String
deriving DecidableEq, Repr

/-- `DriverCompatibilityResult`, restricted to the fields the embedded code
reads. -/
structure DriverCompatibilityResult where
  update_available : Int
  outdated : Int
  critical : Int
  gpu_drivers : List DriverInfo
  critical_issues : List DriverInfo
deriving DecidableEq, Repr

/-- A launcher entry of `GameLauncherResult.installed_launchers`, restricted
to the flags the embedded code reads. -/
structure LauncherInfo where
  name : String
  overlay_enabled : Bool
  auto_start : Bool
deriving DecidableEq, Repr

/-- `GameLauncherResult`, restricted to the fields the embedded code reads. -/
structure GameLauncherResult where
  installed_launchers : List LauncherInfo
  running_launchers : List String
  total_games : Int
  storage_used_gb : ℚ
deriving DecidableEq, Repr

/-- `ConnectionType` from `src/collectors/network.py`. -/
inductive ConnectionType where
  | ethernet
  | wifi
  | vpn
  | bluetooth
  | unknown
deriving DecidableEq, Repr

/-- A gaming-server latency probe (`LatencyTest`), restricted to `avg_ms`. -/
structure LatencyTest where
  target : String
  avg_ms : ℚ
deriving DecidableEq, Repr

/-- `NetworkDiagnosticsResult`, restricted to the fields the embedded code
reads. -/
structure NetworkDiagnosticsResult where
  is_connected : Bool
  connection_type : ConnectionType
  dns_latency_ms : Option ℚ
  gaming_servers : List LatencyTest
  issues : List String
  recommendations : List String
deriving DecidableEq, Repr

/-- A prerequisite entry (`PrerequisiteInfo`), restricted to the fields the
embedded code reads. -/
structure PrerequisiteInfo where
  name : String
  installed : Bool
  details : String
  critical : Bool
deriving DecidableEq, Repr

/-- `PrerequisitesResult` from `src/collectors/prerequisites.py`. -/
structure PrerequisitesResult where
  items : List PrerequisiteInfo
  game_mode_enabled : Bool
deriving DecidableEq, Repr

/-- `ProcessIssue` from `src/collectors/processes.py`. -/
structure ProcessIssue where
  name : String
  pid : Int
  description : String
deriving DecidableEq, Repr

/-- The `details` dict of a benchmark result, restricted to the keys the
analysis engine reads: presence of an `error` key, and
`write_speed_mbps` / `read_speed_mbps` with `.get` default 0. -/
structure BenchDetails where
  has_error : Bool
  write_speed_mbps : Option ℚ
  read_speed_mbps : Option ℚ
deriving DecidableEq, Repr

/-- `BenchmarkResult`, restricted to the fields the embedded code reads. -/
structure BenchmarkResult where
  name : String
  details : BenchDetails
deriving DecidableEq, Repr

/-- `BenchmarkSuite`, restricted to the fields the embedded code reads. -/
structure BenchmarkSuite where
  results : List BenchmarkResult
deriving DecidableEq, Repr

/-- `SystemSnapshot`. The dataclass in `src/models/__init__.py` declares
`event_summary`, `driver_result`, `launcher_result` and `network_result`
(loosely typed, default `None`); the analysis engine additionally reads
`prerequisites_result`, `process_issues` and `benchmark_result`, which are
not declared fields and are never attached anywhere in the repository.  This
record carries all of them as optional fields holding the attached value;
`SnapshotDynAttrs` below models whether the three undeclared attributes were
attached at all. -/
structure SystemSnapshot where
  timestamp : Int
  hardware : HardwareSnapshot
  windows : WindowsInfo
  collectors_used : List String
  errors_encountered : List String
  event_summary : Option EventLogSummary
  driver_result : Option DriverCompatibilityResult
  launcher_result : Option GameLauncherResult
  network_result : Option NetworkDiagnosticsResult
  prerequisites_result : Option PrerequisitesResult
  process_issues : List ProcessIssue
  benchmark_result : Option BenchmarkSuite
deriving DecidableEq, Repr

/-- Presence flags for the three attributes `analyze_for_issues` reads that
are not declared fields of `SystemSnapshot` and would have to be attached
dynamically; reading an unattached one raises `AttributeError` in Python. -/
structure SnapshotDynAttrs where
  has_prerequisites_result : Bool
  has_process_issues : Bool
  has_benchmark_result : Bool
deriving DecidableEq, Repr

/-! Embedding of `analyze_for_issues` (`src/core/analysis.py`).  The unused
`ui` parameter of the source is dropped.  Each rule family is a definition
returning the issues that section appends, in source order. -/

/-- Issue `hw_low_ram_critical` (total RAM below 8 GB). -/
def issueLowRamCritical : Issue :=
  { id := "hw_low_ram_critical", title := "Critical Low Memory",
    category := .hardware, severity := .critical, confidence := 1 }

/-- Issue `hw_low_ram_warn` (total RAM below 16 GB). -/
def issueLowRamWarn : Issue :=
  { id := "hw_low_ram_warn", title := "Low Memory for Modern Games",
    category := .hardware, severity := .medium, confidence := 0.9 }

/-- Issue `hw_slow_ram` (DDR4/DDR5 below 2400 MHz). -/
def issueSlowRam : Issue :=
  { id := "hw_slow_ram", title := "Slow Memory Speed Detected",
    category := .performance, severity := .medium, confidence := 0.85 }

/-- Memory section of `analyze_for_issues` (RAM size rules, then the
XMP/speed rule).  The speed test mirrors the source truthiness test
`memory.speed_mhz and memory.speed_mhz < 2400 and memory.type in [...]`. -/
def memorySection : Option MemoryInfo → List Issue
  | none => []
  | some m =>
    (if m.total_gb < 8 then [issueLowRamCritical]
     else if m.total_gb < 16 then [issueLowRamWarn]
     else [])
    ++
    (match m.speed_mhz with
     | none => []
     | some v =>
       if v ≠ 0 ∧ v < 2400 ∧ (m.type = some ("DDR4") ∨ m.type = some ("DDR5")) then
         [issueSlowRam]
       else [])

/-- Issue `hw_hdd_system` (system drive on a mechanical disk). -/
def issueHddSystem : Issue :=
  { id := "hw_hdd_system", title := "System Running on Mechanical Hard Drive",
    category := .performance, severity := .high, confidence := 1 }

/-- Issue `hw_disk_full_...` (drive more than 90 percent full). -/
def issueDriveNearlyFull (d : StorageInfo) : Issue :=
  { id := "hw_disk_full_" ++ pyTake d.model 20,
    title := "Drive Nearly Full: " ++ pyTake d.model 30,
    category := .performance, severity := .high, confidence := 1 }

/-- Per-drive storage rules of `analyze_for_issues`: the HDD-system-drive
rule, then the nearly-full rule guarded by `drive.total_gb > 0`. -/
def driveIssues (d : StorageInfo) : List Issue :=
  (if d.is_system_drive ∧ d.type = "HDD" then [issueHddSystem] else [])
  ++
  (if 0 < d.total_gb then
     (if 90 < (d.total_gb - d.free_gb) / d.total_gb * 100 then
        [issueDriveNearlyFull d]
      else [])
   else [])

/-- Issue `hw_old_gpu_driver_...` (driver older than 180 days). -/
def issueOldGpuDriver (g : GPUInfo) : Issue :=
  { id := "hw_old_gpu_driver_" ++ pyTake g.name 20,
    title := "Outdated GPU Driver: " ++ pyTake g.name 40,
    category := .gaming, severity := .high, confidence := 0.9 }

/-- Per-GPU driver-age rule.  `now` is the current date (day number): the
source computes `days_old = (datetime.now() - driver_date).days`. -/
def gpuDriverIssues (now : Int) (g : GPUInfo) : List Issue :=
  match g.driver_date with
  | none => []
  | some d => if 180 < now - d then [issueOldGpuDriver g] else []

/-- Issue `hw_cpu_overheating` (CPU above 85 degrees). -/
def issueCpuOverheating : Issue :=
  { id := "hw_cpu_overheating", title := "CPU Overheating Detected",
    category := .hardware, severity := .critical, confidence := 0.95 }

/-- Issue `hw_cpu_hot` (CPU above 75 degrees). -/
def issueCpuHot : Issue :=
  { id := "hw_cpu_hot", title := "CPU Running Hot",
    category := .hardware, severity := .medium, confidence := 0.85 }

/-- CPU temperature rules.  The outer test mirrors the source truthiness
test `snapshot.hardware.cpu and snapshot.hardware.cpu.temperature_celsius`
(a reading of exactly 0 is falsy and skips the rules). -/
def cpuTempSection : Option CPUInfo → List Issue
  | none => []
  | some c =>
    match c.temperature_celsius with
    | none => []
    | some t =>
      if t = 0 then []
      else if 85 < t then [issueCpuOverheating]
      else if 75 < t then [issueCpuHot]
      else []

/-- Hardware section of `analyze_for_issues`, in source order: memory,
storage loop, GPU loop, CPU temperature.  (`if snapshot.hardware:` is always
true: a dataclass instance is truthy.) -/
def hardwareIssues (now : Int) (h : HardwareSnapshot) : List Issue :=
  memorySection h.memory
  ++ h.storage_devices.flatMap driveIssues
  ++ h.gpus.flatMap (gpuDriverIssues now)
  ++ cpuTempSection h.cpu

/-- Issue `prereq_missing_...` for a missing critical prerequisite. -/
def issuePrereqMissing (item : PrerequisiteInfo) : Issue :=
  { id := "prereq_missing_" ++ pyToLower (pyReplaceChar item.name (' ') ('_')),
    title := "Missing Critical Component: " ++ item.name,
    category := .gaming, severity := .high, confidence := 1 }

/-- Issue `conf_game_mode_off`. -/
def issueGameModeOff : Issue :=
  { id := "conf_game_mode_off", title := "Windows Game Mode Disabled",
    category := .gaming, severity := .low, confidence := 0.9 }

/-- Prerequisites section of `analyze_for_issues`. -/
def prereqSection : Option PrerequisitesResult → List Issue
  | none => []
  | some r =>
    (r.items.flatMap (fun item =>
      if ¬ item.installed ∧ item.critical then [issuePrereqMissing item] else []))
    ++ (if ¬ r.game_mode_enabled then [issueGameModeOff] else [])

/-- Names whose presence in a lowered process name escalates the
process-interference severity to high. -/
def antivirusMarkers : List String := ["antivirus", "security", "mcafee", "norton"]

/-- Issue `proc_bloat_...` for an interfering background process. -/
def issueProcBloat (p : ProcessIssue) : Issue :=
  { id := "proc_bloat_" ++ pyReplaceChar p.name ('.') ('_'),
    title := "Background Process Interfering: " ++ p.name,
    category := .performance,
    severity :=
      if antivirusMarkers.any (fun x => pyIn x (pyToLower p.name)) then .high
      else .medium,
    confidence := 0.8 }

/-- Process (bloatware) section of `analyze_for_issues`.  `None` and the
empty list are both falsy in the source test `if snapshot.process_issues:`,
and either way contribute no issues. -/
def processSection (ps : List ProcessIssue) : List Issue := ps.map issueProcBloat

/-- Issue `net_no_connection`. -/
def issueNoConnection : Issue :=
  { id := "net_no_connection", title := "No Network Connection",
    category := .network, severity := .high, confidence := 1 }

/-- Issue `net_<hash>` re-emitted from a free-text network issue string;
the id uses Python `abs(hash(text)) % 10000` with the per-process string
hash `strHash`. -/
def issueNetworkText (strHash : String → Int) (txt : String) : Issue :=
  { id := "net_" ++ toString ((strHash txt).natAbs % 10000),
    title := "Network Issue Detected",
    category := .network,
    severity :=
      if pyIn ("high latency") (pyToLower txt) then .high
      else if pyIn ("packet loss") (pyToLower txt) then .high
      else .medium,
    confidence := 0.9 }

/-- Issue `net_wifi_gaming`. -/
def issueWifi : Issue :=
  { id := "net_wifi_gaming", title := "Using WiFi for Gaming",
    category := .network, severity := .low, confidence := 0.85 }

/-- Network section of `analyze_for_issues`: either the no-connection issue,
or the re-classified free-text issues followed by the WiFi rule.
(`connection_type` is a `ConnectionType` enum member, always truthy, so the
source test reduces to `.value == 'wifi'`.) -/
def networkSection (strHash : String → Int) :
    Option NetworkDiagnosticsResult → List Issue
  | none => []
  | some n =>
    if ¬ n.is_connected then [issueNoConnection]
    else
      (n.issues.map (issueNetworkText strHash))
      ++ (if n.connection_type = ConnectionType.wifi then [issueWifi] else [])

/-- Issue `bench_slow_disk_write` (write speed below 100 MB/s). -/
def issueSlowDiskWrite : Issue :=
  { id := "bench_slow_disk_write", title := "Poor Disk Write Performance",
    category := .performance, severity := .medium, confidence := 1 }

/-- Issue `bench_very_slow_disk` (write speed below 50 MB/s). -/
def issueVerySlowDisk : Issue :=
  { id := "bench_very_slow_disk", title := "Very Poor Disk Performance",
    category := .performance, severity := .high, confidence := 1 }

/-- Per-benchmark-result rules of `analyze_for_issues`, preserving the
source branch order exactly: the `< 100` test comes first and the
`elif ... < 50` branch after it (the `read_speed` the source also extracts
is never used). -/
def benchResultIssues (bench : BenchmarkResult) : List Issue :=
  if bench.name = "Disk I/O (Seq)" ∧ ¬ bench.details.has_error then
    (let write_speed := bench.details.write_speed_mbps.getD 0
     if 0 < write_speed ∧ write_speed < 100 then [issueSlowDiskWrite]
     else if 0 < write_speed ∧ write_speed < 50 then [issueVerySlowDisk]
     else [])
  else []

/-- Benchmark section of `analyze_for_issues`. -/
def benchSection : Option BenchmarkSuite → List Issue
  | none => []
  | some b => b.results.flatMap benchResultIssues

/-- Issue `driver_critical_...` for a critically outdated driver. -/
def issueDriverCritical (dr : DriverInfo) : Issue :=
  { id := "driver_critical_" ++ pyTake (pyReplaceChar dr.name (' ') ('_')) 20,
    title := "Critical Driver Issue: " ++ dr.name,
    category := .hardware, severity := .critical, confidence := 0.95 }

/-- Issue `driver_gpu_update_...` for an available GPU driver update. -/
def issueGpuDriverUpdate (g : DriverInfo) : Issue :=
  { id := "driver_gpu_update_" ++ pyTake (pyReplaceChar g.name (' ') ('_')) 20,
    title := "GPU Driver Update Available: " ++ g.name,
    category := .gaming, severity := .medium, confidence := 0.9 }

/-- Driver section of `analyze_for_issues`: the loop over `critical_issues`
is gated by `critical > 0`; every `gpu_drivers` entry in state
`update_available` is re-emitted (`hasattr` is always true: `status` is a
declared dataclass field). -/
def driverSection : Option DriverCompatibilityResult → List Issue
  | none => []
  | some d =>
    (if 0 < d.critical then d.critical_issues.map issueDriverCritical else [])
    ++ d.gpu_drivers.flatMap (fun g =>
        if g.status = DriverStatus.update_available then [issueGpuDriverUpdate g]
        else [])

/-- Issue `sys_recent_crashes`. -/
def issueRecentCrashes (e : EventLogSummary) : Issue :=
  { id := "sys_recent_crashes",
    title := "Recent System Crashes Detected: " ++ toString e.critical_errors,
    category := .stability, severity := .high, confidence := 0.85 }

/-- Issue `sys_app_crashes`. -/
def issueAppCrashes (e : EventLogSummary) : Issue :=
  { id := "sys_app_crashes",
    title := "Recent Application Crashes: " ++ toString e.app_crashes,
    category := .stability, severity := .medium, confidence := 0.8 }

/-- Event-log section of `analyze_for_issues`. -/
def eventSection : Option EventLogSummary → List Issue
  | none => []
  | some e =>
    (if 0 < e.critical_errors then [issueRecentCrashes e] else [])
    ++ (if 0 < e.app_crashes then [issueAppCrashes e] else [])

/-- Issue `launchers_too_many`. -/
def issueTooManyLaunchers (n : Nat) : Issue :=
  { id := "launchers_too_many",
    title := "Too Many Launchers Running: " ++ toString n,
    category := .performance, severity := .medium, confidence := 0.9 }

/-- Launcher section of `analyze_for_issues`. -/
def launcherSection : Option GameLauncherResult → List Issue
  | none => []
  | some l =>
    if 3 < l.running_launchers.length then
      [issueTooManyLaunchers l.running_launchers.length]
    else []

/-- All issues accumulated by `analyze_for_issues` before the final sort, in
the exact order the source appends them. -/
def preSortIssues (strHash : String → Int) (now : Int) (s : SystemSnapshot) :
    List Issue :=
  hardwareIssues now s.hardware
  ++ prereqSection s.prerequisites_result
  ++ processSection s.process_issues
  ++ networkSection strHash s.network_result
  ++ benchSection s.benchmark_result
  ++ driverSection s.driver_result
  ++ eventSection s.event_summary
  ++ launcherSection s.launcher_result

/-- The sort key `severity_order` of `analyze_for_issues` (its `.get`
default 4 is unreachable for the four-member enum). -/
def severityRank : IssueSeverity → Nat
  | .critical => 0
  | .high => 1
  | .medium => 2
  | .low => 3

/-- Stable insertion by severity rank: an element is placed after every
earlier element of strictly smaller rank and before the first element of
equal or larger rank. -/
def insertBySeverity (x : Issue) : List Issue → List Issue
  | [] => [x]
  | y :: ys =>
    if severityRank y.severity < severityRank x.severity then
      y :: insertBySeverity x ys
    else x :: y :: ys

/-- Embedding of `issues.sort(key=lambda x: severity_order.get(x.severity, 4))`:
Python `list.sort` is specified to be stable, and this structural stable
insertion sort has exactly that semantics (proved sorted and stable below). -/
def sortIssuesBySeverity : List Issue → List Issue
  | [] => []
  | x :: xs => insertBySeverity x (sortIssuesBySeverity xs)

/-- `analyze_for_issues(snapshot)` from `src/core/analysis.py`, given the
per-process string hash and the current date. -/
def analyze_for_issues (strHash : String → Int) (now : Int)
    (s : SystemSnapshot) : List Issue :=
  sortIssuesBySeverity (preSortIssues strHash now s)

/-- `analyze_for_issues` with Python attribute lookup modelled for the three
attributes that are not declared fields of `SystemSnapshot`
(`prerequisites_result`, `process_issues`, `benchmark_result`): if one of
them was never attached to the snapshot object, the corresponding read
raises `AttributeError` (in the order the source reads them) and no issue
list is produced. -/
def analyzeChecked (dyn : SnapshotDynAttrs) (strHash : String → Int)
    (now : Int) (s : SystemSnapshot) : Except String (List Issue) :=
  if ¬ dyn.has_prerequisites_result then
    .error ("AttributeError: SystemSnapshot object has no attribute prerequisites_result")
  else if ¬ dyn.has_process_issues then
    .error ("AttributeError: SystemSnapshot object has no attribute process_issues")
  else if ¬ dyn.has_benchmark_result then
    .error ("AttributeError: SystemSnapshot object has no attribute benchmark_result")
  else .ok (analyze_for_issues strHash now s)

/-! Embedding of `DiagnosticResult` (`src/models/__init__.py`): the
severity-count computation of `__post_init__` and the `health_score`
property.  `scan_id` (an SHA-256 prefix of the timestamp) and
`scan_duration_seconds` are not read by any verified property and are not
carried. -/

/-- `DiagnosticResult`, restricted to the fields the verified properties
read. -/
structure DiagnosticResult where
  snapshot : SystemSnapshot
  issues : List Issue
  critical_count : Nat
  high_count : Nat
  medium_count : Nat
  low_count : Nat
deriving DecidableEq, Repr

/-- One step of the severity-count loop in `DiagnosticResult.__post_init__`
(`if critical / elif high / elif medium / else low`). -/
def tallySeverity (r : DiagnosticResult) (i : Issue) : DiagnosticResult :=
  match i.severity with
  | .critical => { r with critical_count := r.critical_count + 1 }
  | .high => { r with high_count := r.high_count + 1 }
  | .medium => { r with medium_count := r.medium_count + 1 }
  | _ => { r with low_count := r.low_count + 1 }

/-- Constructing a `DiagnosticResult` from a snapshot and an issue list with
the counts at their constructor defaults, then running `__post_init__`. -/
def mkDiagnosticResult (snap : SystemSnapshot) (issues : List Issue) :
    DiagnosticResult :=
  issues.foldl tallySeverity
    { snapshot := snap, issues := issues,
      critical_count := 0, high_count := 0, medium_count := 0, low_count := 0 }

/-- The severity weights of the `health_score` property (`weights.get` with
default 0 is unreachable for the four-member enum). -/
def severityWeight : IssueSeverity → Int
  | .critical => 25
  | .high => 15
  | .medium => 5
  | .low => 1

/-- The `health_score` property of `DiagnosticResult`. -/
def DiagnosticResult.health_score (r : DiagnosticResult) : Int :=
  if r.issues = [] then 100
  else max 0 (100 - (r.issues.map (fun i => severityWeight i.severity)).sum)

/-! Embedding of the orchestrator `DiagnosticAgent` (`src/core/agent.py`)
and its entry point `main` (`src/__main__.py`).

The agent has its own rule battery `_analyze_for_issues` (distinct from
`analyze_for_issues` in `src/core/analysis.py`, which nothing in the
repository calls); `run_full_diagnostic` uses the agent-side battery.
Agent-side issues are constructed with `id=""` in the source, which
`Issue.__post_init__` replaces by a time-salted md5 hash; no verified
property reads those ids, and they are carried here as the empty string. -/

/-- `_analyze_cpu`: thermal rule (truthy temperature test), then the
virtualization rule. -/
def agent_analyze_cpu (c : CPUInfo) : List Issue :=
  (match c.temperature_celsius with
   | none => []
   | some t =>
     if t ≠ 0 ∧ 85 < t then
       [{ id := "", title := "CPU Running Hot",
          category := .hardware, severity := .high, confidence := 0.85 }]
     else [])
  ++
  (if ¬ c.virtualization_support then
     [{ id := "", title := "Virtualization Not Supported",
        category := .hardware, severity := .low, confidence := 0.95 }]
   else [])

/-- `_analyze_memory`: memory usage percent, guarded by `total_gb > 0`
(zero otherwise), then the 90 / 80 percent thresholds. -/
def agent_analyze_memory (m : MemoryInfo) : List Issue :=
  let usage_percent := if 0 < m.total_gb then m.used_gb / m.total_gb * 100 else 0
  if 90 < usage_percent then
    [{ id := "", title := "Critical Memory Usage",
       category := .performance, severity := .critical, confidence := 0.9 }]
  else if 80 < usage_percent then
    [{ id := "", title := "High Memory Usage",
       category := .performance, severity := .medium, confidence := 0.85 }]
  else []

/-- `_analyze_gpu`: informational driver-version issue (truthy version
test), then the VRAM rule (truthy `vram_mb` test). -/
def agent_analyze_gpu (g : GPUInfo) : List Issue :=
  (if g.driver_version ≠ "" then
     [{ id := "", title := "GPU Driver Version",
        category := .gaming, severity := .low, confidence := 0.6 }]
   else [])
  ++
  (if g.vram_mb ≠ 0 ∧ g.vram_mb < 4096 then
     [{ id := "", title := "Low GPU Memory",
        category := .hardware, severity := .medium, confidence := 0.8 }]
   else [])

/-- `_analyze_storage`: disk-space rules guarded by `total_gb > 0`
(95 / 85 percent thresholds on `used_gb / total_gb`), then the
HDD-system-drive rule. -/
def agent_analyze_storage (st : StorageInfo) : List Issue :=
  (if 0 < st.total_gb then
     (let usage_percent := st.used_gb / st.total_gb * 100
      if 95 < usage_percent then
        [{ id := "", title := "Critical Disk Space on " ++ st.model,
           category := .performance, severity := .critical, confidence := 0.95 }]
      else if 85 < usage_percent then
        [{ id := "", title := "Low Disk Space on " ++ st.model,
           category := .performance, severity := .high, confidence := 0.9 }]
      else [])
   else [])
  ++
  (if st.is_system_drive ∧ st.type = "HDD" then
     [{ id := "", title := "System Drive on HDD",
        category := .performance, severity := .medium, confidence := 0.9 }]
   else [])

/-- `_analyze_event_logs`: three-or-more recent crashes, then any
gaming-related events. -/
def agent_analyze_event_logs (e : EventLogSummary) : List Issue :=
  (if e.recent_crashes ≠ [] ∧ 3 ≤ e.recent_crashes.length then
     [{ id := "",
        title := "Frequent Application Crashes (" ++ toString e.recent_crashes.length
          ++ " in last " ++ toString e.analysis_period_days ++ " days)",
        category := .stability, severity := .high, confidence := 0.9 }]
   else [])
  ++
  (if e.gaming_related_events ≠ [] ∧ 0 < e.gaming_related_events.length then
     [{ id := "",
        title := "Gaming-Related System Events ("
          ++ toString e.gaming_related_events.length ++ ")",
        category := .gaming, severity := .low, confidence := 0.75 }]
   else [])

/-- `_analyze_drivers`: critical count, outdated count, then the GPU
drivers in state `update_available` or `outdated`. -/
def agent_analyze_drivers (d : DriverCompatibilityResult) : List Issue :=
  (if 0 < d.critical then
     [{ id := "", title := "Critical Driver Issues (" ++ toString d.critical ++ ")",
        category := .hardware, severity := .critical, confidence := 0.95 }]
   else [])
  ++
  (if 0 < d.outdated then
     [{ id := "", title := "Outdated Drivers (" ++ toString d.outdated ++ ")",
        category := .hardware, severity := .medium, confidence := 0.85 }]
   else [])
  ++
  (if 0 < d.gpu_drivers.countP (fun g =>
        g.status = DriverStatus.update_available ∨ g.status = DriverStatus.outdated) then
     [{ id := "", title := "GPU Driver Update Available",
        category := .gaming, severity := .high, confidence := 0.9 }]
   else [])

/-- `_analyze_launchers`: multiple overlays, large library, auto-start
count. -/
def agent_analyze_launchers (l : GameLauncherResult) : List Issue :=
  (if 1 < l.installed_launchers.countP (fun la => la.overlay_enabled) then
     [{ id := "",
        title := "Multiple Overlays Enabled ("
          ++ toString (l.installed_launchers.countP (fun la => la.overlay_enabled)) ++ ")",
        category := .gaming, severity := .medium, confidence := 0.8 }]
   else [])
  ++
  (if 500 < l.storage_used_gb then
     [{ id := "", title := "Large Game Library",
        category := .performance, severity := .low, confidence := 0.85 }]
   else [])
  ++
  (if 2 < l.installed_launchers.countP (fun la => la.auto_start) then
     [{ id := "",
        title := "Too Many Auto-Start Launchers ("
          ++ toString (l.installed_launchers.countP (fun la => la.auto_start)) ++ ")",
        category := .performance, severity := .low, confidence := 0.75 }]
   else [])

/-- `_analyze_network`: the no-connection rule returns early; otherwise the
WiFi, DNS-latency (truthy test) and gaming-server-latency rules run. -/
def agent_analyze_network (n : NetworkDiagnosticsResult) : List Issue :=
  if ¬ n.is_connected then
    [{ id := "", title := "No Network Connection",
       category := .network, severity := .critical, confidence := 0.99 }]
  else
    (if n.connection_type = ConnectionType.wifi then
       [{ id := "", title := "WiFi Connection Detected",
          category := .network, severity := .low, confidence := 0.85 }]
     else [])
    ++
    (match n.dns_latency_ms with
     | none => []
     | some v =>
       if v ≠ 0 ∧ 100 < v then
         [{ id := "", title := "High DNS Latency",
            category := .network, severity := .medium, confidence := 0.8 }]
       else [])
    ++
    (if n.gaming_servers.filter (fun srv => 150 < srv.avg_ms) ≠ [] then
       [{ id := "", title := "High Latency to Gaming Servers",
          category := .network, severity := .medium, confidence := 0.75 }]
     else [])

/-- The agent-side `_analyze_for_issues`, in source order.  Note: the agent
battery does not sort its output. -/
def agent_analyze_for_issues (s : SystemSnapshot) : List Issue :=
  (match s.hardware.cpu with
   | some c => agent_analyze_cpu c
   | none => [])
  ++ (match s.hardware.memory with
      | some m => agent_analyze_memory m
      | none => [])
  ++ s.hardware.gpus.flatMap agent_analyze_gpu
  ++ s.hardware.storage_devices.flatMap agent_analyze_storage
  ++ (match s.event_summary with
      | some e => agent_analyze_event_logs e
      | none => [])
  ++ (match s.driver_result with
      | some d => agent_analyze_drivers d
      | none => [])
  ++ (match s.launcher_result with
      | some l => agent_analyze_launchers l
      | none => [])
  ++ (match s.network_result with
      | some n => agent_analyze_network n
      | none => [])

/-- The result of `wmi_helper.get_operating_system_info()` as the dict keys
`_collect_windows_info` reads (each read through `.get` with a default). -/
structure OsInfoDict where
  Caption : Option String
  BuildNumber : Option String
  OSArchitecture : Option String
  InstallDate : Option String
deriving DecidableEq, Repr

/-- The behaviour of the external calls one `run_full_diagnostic` run makes:
each collector-level call either returns its value or raises (the string is
the formatted error message the agent would append).  `platform_version` /
`platform_machine` feed the WMI-unavailable fallback path. -/
structure WmiEnv where
  wmi_available : Bool
  os_info : Except String OsInfoDict
  sys_info : Except String Unit
  platform_version : String
  platform_machine : String
  hardware : Except String HardwareSnapshot
  hardware_extra_errors : List String
  event_logs : Except String EventLogSummary
  event_collector_errors : List String
  drivers : Except String DriverCompatibilityResult
  driver_collector_errors : List String
  launchers : Except String GameLauncherResult
  launcher_collector_errors : List String
  network : Except String NetworkDiagnosticsResult
  network_collector_errors : List String
  scan_time : Int

/-- The edition detection of `_collect_windows_info` (`'Pro' in caption`
etc.). -/
def pickEdition (caption : String) : String :=
  if pyIn ("Pro") caption then "Pro"
  else if pyIn ("Home") caption then "Home"
  else if pyIn ("Enterprise") caption then "Enterprise"
  else "Unknown"

/-- `_collect_windows_info`.  The `except` clause appends an error message
and then falls through to `return WindowsInfo(**windows_data)`; after any
exception inside the `try`, `windows_data` is missing required constructor
keys (all four after a failure of `get_operating_system_info`, `edition`
after a failure of `get_computer_system_info`), so the construction itself
raises `TypeError`, which propagates out of the method: modelled as
`Except.error`.  Returns the outcome together with the error strings
appended to `self.errors`. -/
def _collect_windows_info (env : WmiEnv) :
    Except String WindowsInfo × List String :=
  if ¬ env.wmi_available then
    (.ok { version := env.platform_version, build := env.platform_version,
           edition := "Unknown", architecture := env.platform_machine,
           install_date := none, activation_status := "Unknown" }, [])
  else
    match env.os_info with
    | .error e =>
      (.error ("TypeError: WindowsInfo() missing 4 required positional arguments"),
       ["Windows info collection error: " ++ e])
    | .ok os =>
      match env.sys_info with
      | .error e =>
        (.error ("TypeError: WindowsInfo() missing 1 required positional argument: edition"),
         ["Windows info collection error: " ++ e])
      | .ok _ =>
        (.ok { version := os.Caption.getD ("Unknown"),
               build := os.BuildNumber.getD ("Unknown"),
               edition := pickEdition (os.Caption.getD ("")),
               architecture := os.OSArchitecture.getD ("Unknown"),
               install_date := some (os.InstallDate.getD ("")),
               activation_status := "Unknown" }, [])

/-- The empty `HardwareSnapshot()` default. -/
def emptyHardware : HardwareSnapshot :=
  { cpu := none, memory := none, gpus := [], storage_devices := [] }

/-- `_collect_hardware_info` (subprocess isolation): on success the decoded
snapshot plus the error strings carried in its payload; on any failure mode
(nonzero exit, timeout, spawn failure) the empty default plus the formatted
message, never an exception. -/
def _collect_hardware_info (env : WmiEnv) : HardwareSnapshot × List String :=
  match env.hardware with
  | .ok h => (h, env.hardware_extra_errors)
  | .error e => (emptyHardware, [e])

/-- The `EventLogSummary()` default. -/
def defaultEventLogSummary : EventLogSummary :=
  { critical_count := 0, recent_crashes := [], gaming_related_events := [],
    analysis_period_days := 7 }

/-- `_collect_event_logs`: value plus collector-reported errors on success,
default plus formatted message on exception. -/
def _collect_event_logs (env : WmiEnv) : EventLogSummary × List String :=
  match env.event_logs with
  | .ok s => (s, env.event_collector_errors)
  | .error e => (defaultEventLogSummary, ["Event log collection error: " ++ e])

/-- The `DriverCompatibilityResult()` default. -/
def defaultDriverResult : DriverCompatibilityResult :=
  { update_available := 0, outdated := 0, critical := 0,
    gpu_drivers := [], critical_issues := [] }

/-- `_check_drivers`. -/
def _check_drivers (env : WmiEnv) : DriverCompatibilityResult × List String :=
  match env.drivers with
  | .ok d => (d, env.driver_collector_errors)
  | .error e => (defaultDriverResult, ["Driver check error: " ++ e])

/-- The `GameLauncherResult()` default. -/
def defaultLauncherResult : GameLauncherResult :=
  { installed_launchers := [], running_launchers := [],
    total_games := 0, storage_used_gb := 0 }

/-- `_detect_launchers`. -/
def _detect_launchers (env : WmiEnv) : GameLauncherResult × List String :=
  match env.launchers with
  | .ok l => (l, env.launcher_collector_errors)
  | .error e => (defaultLauncherResult, ["Launcher detection error: " ++ e])

/-- The `NetworkDiagnosticsResult()` default. -/
def defaultNetworkResult : NetworkDiagnosticsResult :=
  { is_connected := false, connection_type := .unknown, dns_latency_ms := none,
    gaming_servers := [], issues := [], recommendations := [] }

/-- `_run_network_diagnostics`. -/
def _run_network_diagnostics (env : WmiEnv) : NetworkDiagnosticsResult × List String :=
  match env.network with
  | .ok n => (n, env.network_collector_errors)
  | .error e => (defaultNetworkResult, ["Network diagnostics error: " ++ e])

/-- The `collectors_used` constant of `run_full_diagnostic`. -/
def collectorsUsedList : List String :=
  ["hardware", "windows", "event_logs", "drivers", "launchers", "network"]

/-- `run_full_diagnostic`: the fixed collector sequence (Windows info,
hardware, event logs, drivers, launchers, network), snapshot construction
attaching the four phase-2 results, the agent-side analysis, and the final
`DiagnosticResult`.  An exception escaping `_collect_windows_info` (the
`TypeError` described there) propagates and aborts the scan. -/
def run_full_diagnostic (env : WmiEnv) : Except String DiagnosticResult :=
  match _collect_windows_info env with
  | (.error e, _) => .error e
  | (.ok w, windowsErrors) =>
    let hw := _collect_hardware_info env
    let ev := _collect_event_logs env
    let dr := _check_drivers env
    let la := _detect_launchers env
    let ne := _run_network_diagnostics env
    let snap : SystemSnapshot :=
      { timestamp := env.scan_time, hardware := hw.1, windows := w,
        collectors_used := collectorsUsedList,
        errors_encountered :=
          windowsErrors ++ hw.2 ++ ev.2 ++ dr.2 ++ la.2 ++ ne.2,
        event_summary := some ev.1, driver_result := some dr.1,
        launcher_result := some la.1, network_result := some ne.1,
        prerequisites_result := none, process_issues := [],
        benchmark_result := none }
    .ok (mkDiagnosticResult snap (agent_analyze_for_issues snap))

/-- The keyword parameters accepted by `DiagnosticAgent.__init__`
(`src/core/agent.py`: `def __init__(self, ui=None, verbose=False)`). -/
def diagnosticAgentInitParams : List String := ["self", "ui", "verbose"]

/-- The keyword arguments `main` passes when constructing the agent
(`src/__main__.py`: `DiagnosticAgent(ui=ui, verbose=args.verbose,
quick_mode=args.quick)`). -/
def mainAgentCallKeywords : List String := ["ui", "verbose", "quick_mode"]

/-- Python keyword binding: a call binds only if every keyword argument
names an accepted parameter; otherwise the call raises `TypeError`. -/
def pyKeywordsBindable (params kwargs : List String) : Bool :=
  kwargs.all (fun k => params.contains k)

/-! Concrete values used by the evaluation theorems below. -/

/-- A fixed `WindowsInfo` value for concrete snapshots. -/
def winSample : WindowsInfo :=
  { version := "Microsoft Windows 11 Pro", build := "22631", edition := "Pro",
    architecture := "64-bit", install_date := none, activation_status := "Unknown" }

/-- The empty/default snapshot: every optional field absent or at its
dataclass default. -/
def emptySnapshot : SystemSnapshot :=
  { timestamp := 0, hardware := emptyHardware, windows := winSample,
    collectors_used := [], errors_encountered := [],
    event_summary := none, driver_result := none, launcher_result := none,
    network_result := none, prerequisites_result := none,
    process_issues := [], benchmark_result := none }

/-- A trivial stand-in for the per-process string hash. -/
def zeroHash : String → Int := fun _ => 0

/-- The storage device of the spec scenario:
`{total_gb:100, free_gb:3, is_system_drive:true, type:"HDD"}`. -/
def scenarioDrive : StorageInfo :=
  { model := "Test HDD", type := "HDD", total_gb := 100, used_gb := 97,
    free_gb := 3, is_system_drive := true }

/-- Snapshot holding only the scenario storage device. -/
def scenarioSnapshot : SystemSnapshot :=
  { emptySnapshot with hardware := { emptyHardware with storage_devices := [scenarioDrive] } }

/-- A non-system drive that is 87 percent full (between the 85 and 90
percent thresholds of the claim). -/
def drive87 : StorageInfo :=
  { model := "Data SSD", type := "SSD", total_gb := 100, used_gb := 87,
    free_gb := 13, is_system_drive := false }

/-- Snapshot holding only the 87-percent-full drive. -/
def snapshot87 : SystemSnapshot :=
  { emptySnapshot with hardware := { emptyHardware with storage_devices := [drive87] } }

/-- A benchmark suite whose sequential disk write speed measured 30 MB/s. -/
def benchSuite30 : BenchmarkSuite :=
  { results := [{ name := "Disk I/O (Seq)",
                  details := { has_error := false, write_speed_mbps := some 30,
                               read_speed_mbps := some 200 } }] }

/-- Snapshot holding only the 30 MB/s benchmark result. -/
def benchSnapshot30 : SystemSnapshot :=
  { emptySnapshot with benchmark_result := some benchSuite30 }

/-- A GPU whose driver date parses to day 0. -/
def gpuDatedDriver : GPUInfo :=
  { name := "GeForce RTX 3070", manufacturer := "NVIDIA", vram_mb := 8192,
    driver_version := "531.41", driver_date := some 0 }

/-- Snapshot holding only the dated-driver GPU. -/
def gpuSnapshot : SystemSnapshot :=
  { emptySnapshot with hardware := { emptyHardware with gpus := [gpuDatedDriver] } }

/-- A storage device with zero total capacity. -/
def zeroCapacityDrive : StorageInfo :=
  { model := "Ghost Drive", type := "HDD", total_gb := 0, used_gb := 0,
    free_gb := 0, is_system_drive := true }

/-- A memory record with zero total capacity. -/
def zeroCapacityMemory : MemoryInfo :=
  { total_gb := 0, used_gb := 0, available_gb := 0, speed_mhz := none, type := none }

/-- A small healthy hardware snapshot for the orchestrator runs. -/
def baseHardware : HardwareSnapshot :=
  { cpu := none, memory := none, gpus := [],
    storage_devices := [{ model := "Samsung SSD", type := "SSD", total_gb := 1000,
                          used_gb := 400, free_gb := 600, is_system_drive := true }] }

/-- An event-log summary with one crash entry. -/
def baseEventSummary : EventLogSummary :=
  { critical_count := 2, recent_crashes := [{ event_id := 1001 }],
    gaming_related_events := [], analysis_period_days := 7 }

/-- A driver result with one up-to-date GPU driver. -/
def baseDrivers : DriverCompatibilityResult :=
  { update_available := 0, outdated := 0, critical := 0,
    gpu_drivers := [{ name := "NVIDIA Driver", version := "531.41",
                      status := .up_to_date, latest_version := none,
                      update_url := none }],
    critical_issues := [] }

/-- A launcher result with one launcher. -/
def baseLaunchers : GameLauncherResult :=
  { installed_launchers := [{ name := "Steam", overlay_enabled := true,
                              auto_start := false }],
    running_launchers := ["Steam"], total_games := 12, storage_used_gb := 150 }

/-- A connected ethernet network result. -/
def baseNetwork : NetworkDiagnosticsResult :=
  { is_connected := true, connection_type := .ethernet, dns_latency_ms := some 12,
    gaming_servers := [], issues := [], recommendations := [] }

/-- An environment in which every external call succeeds. -/
def baseEnv : WmiEnv :=
  { wmi_available := true,
    os_info := .ok { Caption := some ("Microsoft Windows 11 Pro"),
                     BuildNumber := some ("22631"),
                     OSArchitecture := some ("64-bit"),
                     InstallDate := some ("20230101") },
    sys_info := .ok (),
    platform_version := "10.0.22631", platform_machine := "AMD64",
    hardware := .ok baseHardware, hardware_extra_errors := [],
    event_logs := .ok baseEventSummary, event_collector_errors := [],
    drivers := .ok baseDrivers, driver_collector_errors := [],
    launchers := .ok baseLaunchers, launcher_collector_errors := [],
    network := .ok baseNetwork, network_collector_errors := [],
    scan_time := 0 }

/-- `baseEnv` with the first WMI query of the Windows-info collector
raising. -/
def envWindowsFault : WmiEnv := { baseEnv with os_info := .error ("WMI query failed") }

/-- `baseEnv` with the event-log collector raising. -/
def envEventFault : WmiEnv := { baseEnv with event_logs := .error ("log access denied") }

/-- Does a scan outcome represent an exception that escaped
`run_full_diagnostic`? -/
def scanRaised (x : Except String DiagnosticResult) : Bool :=
  match x with
  | .error _ => true
  | .ok _ => false

/-- The snapshot of a completed scan, if the scan completed. -/
def resultSnapshot (x : Except String DiagnosticResult) : Option SystemSnapshot :=
  match x with
  | .ok r => some r.snapshot
  | .error _ => none

/-! Helper lemmas. -/

/-- The severity-count loop of `__post_init__` never touches the `issues`
field. -/
theorem foldl_tally_issues (l : List Issue) (r : DiagnosticResult) :
    (l.foldl tallySeverity r).issues = r.issues := by
  induction l generalizing r with
  | nil => rfl
  | cons a as ih =>
    rw [List.foldl_cons, ih]
    cases h : a.severity <;> simp [tallySeverity, h]

/-- The severity-count loop of `__post_init__` never touches the `snapshot`
field. -/
theorem foldl_tally_snapshot (l : List Issue) (r : DiagnosticResult) :
    (l.foldl tallySeverity r).snapshot = r.snapshot := by
  induction l generalizing r with
  | nil => rfl
  | cons a as ih =>
    rw [List.foldl_cons, ih]
    cases h : a.severity <;> simp [tallySeverity, h]

/-- The severity-count loop adds, to each accumulator field, the number of
issues of exactly that severity. -/
theorem foldl_tally_counts (l : List Issue) (r : DiagnosticResult) :
    (l.foldl tallySeverity r).critical_count
        = r.critical_count + l.countP (fun i => i.severity = IssueSeverity.critical)
    ∧ (l.foldl tallySeverity r).high_count
        = r.high_count + l.countP (fun i => i.severity = IssueSeverity.high)
    ∧ (l.foldl tallySeverity r).medium_count
        = r.medium_count + l.countP (fun i => i.severity = IssueSeverity.medium)
    ∧ (l.foldl tallySeverity r).low_count
        = r.low_count + l.countP (fun i => i.severity = IssueSeverity.low) := by
  induction l generalizing r with
  | nil => simp
  | cons a as ih =>
    rw [List.foldl_cons]
    cases h : a.severity <;>
      simp only [tallySeverity, h] <;>
      refine ⟨?_, ?_, ?_, ?_⟩ <;>
      simp [(ih _).1, (ih _).2.1, (ih _).2.2.1, (ih _).2.2.2,
        List.countP_cons, h] <;> omega

/-- The four per-severity counts of an issue list sum to its length. -/
theorem countP_severity_sum (l : List Issue) :
    l.countP (fun i => i.severity = IssueSeverity.critical)
      + l.countP (fun i => i.severity = IssueSeverity.high)
      + l.countP (fun i => i.severity = IssueSeverity.medium)
      + l.countP (fun i => i.severity = IssueSeverity.low) = l.length := by
  induction l with
  | nil => rfl
  | cons a as ih =>
    cases h : a.severity <;> simp [List.countP_cons, h] <;> omega

/-- Claim C1: for every issue list, the health score of a `DiagnosticResult`
built over it equals `max 0 (100 - Σ severity weights)` with weights
critical 25 / high 15 / medium 5 / low 1; the empty list scores exactly
100, and the score is never negative. -/
theorem c1_health_score (snap : SystemSnapshot) (issues : List Issue) :
    (mkDiagnosticResult snap issues).health_score
        = max 0 (100 - (issues.map (fun i => severityWeight i.severity)).sum)
    ∧ (mkDiagnosticResult snap []).health_score = 100
    ∧ 0 ≤ (mkDiagnosticResult snap issues).health_score := by
  have hi : (mkDiagnosticResult snap issues).issues = issues :=
    foldl_tally_issues issues _
  have hscore : (mkDiagnosticResult snap issues).health_score
      = max 0 (100 - (issues.map (fun i => severityWeight i.severity)).sum) := by
    rw [DiagnosticResult.health_score, hi]
    by_cases h : issues = []
    · simp [h]
    · simp [h]
  refine ⟨hscore, by simp [mkDiagnosticResult, DiagnosticResult.health_score], ?_⟩
  rw [hscore]
  exact le_max_left 0 _

/-- Claim C2: for every `DiagnosticResult` constructed from a snapshot and
an issue list, the four severity counts sum to the length of the issue
list, and each count equals the number of issues of exactly that
severity. -/
theorem c2_severity_counts (snap : SystemSnapshot) (issues : List Issue) :
    (mkDiagnosticResult snap issues).critical_count
        + (mkDiagnosticResult snap issues).high_count
        + (mkDiagnosticResult snap issues).medium_count
        + (mkDiagnosticResult snap issues).low_count = issues.length
    ∧ (mkDiagnosticResult snap issues).critical_count
        = issues.countP (fun i => i.severity = IssueSeverity.critical)
    ∧ (mkDiagnosticResult snap issues).high_count
        = issues.countP (fun i => i.severity = IssueSeverity.high)
    ∧ (mkDiagnosticResult snap issues).medium_count
        = issues.countP (fun i => i.severity = IssueSeverity.medium)
    ∧ (mkDiagnosticResult snap issues).low_count
        = issues.countP (fun i => i.severity = IssueSeverity.low) := by
  obtain ⟨hc, hh, hm, hl⟩ := foldl_tally_counts issues
    { snapshot := snap, issues := issues,
      critical_count := 0, high_count := 0, medium_count := 0, low_count := 0 }
  have hc2 : (mkDiagnosticResult snap issues).critical_count
      = issues.countP (fun i => i.severity = IssueSeverity.critical) := by
    simpa [mkDiagnosticResult] using hc
  have hh2 : (mkDiagnosticResult snap issues).high_count
      = issues.countP (fun i => i.severity = IssueSeverity.high) := by
    simpa [mkDiagnosticResult] using hh
  have hm2 : (mkDiagnosticResult snap issues).medium_count
      = issues.countP (fun i => i.severity = IssueSeverity.medium) := by
    simpa [mkDiagnosticResult] using hm
  have hl2 : (mkDiagnosticResult snap issues).low_count
      = issues.countP (fun i => i.severity = IssueSeverity.low) := by
    simpa [mkDiagnosticResult] using hl
  refine ⟨?_, hc2, hh2, hm2, hl2⟩
  rw [hc2, hh2, hm2, hl2]
  exact countP_severity_sum issues

/-- Membership in a severity insertion. -/
theorem mem_insertBySeverity (x z : Issue) (l : List Issue) :
    z ∈ insertBySeverity x l ↔ z = x ∨ z ∈ l := by
  induction l with
  | nil => simp [insertBySeverity]
  | cons y ys ih =>
    by_cases h : severityRank y.severity < severityRank x.severity
    · simp only [insertBySeverity, if_pos h, List.mem_cons, ih]
      tauto
    · simp only [insertBySeverity, if_neg h, List.mem_cons]

/-- Severity insertion preserves sortedness by severity rank. -/
theorem pairwise_insertBySeverity (x : Issue) (l : List Issue)
    (hl : l.Pairwise (fun a b => severityRank a.severity ≤ severityRank b.severity)) :
    (insertBySeverity x l).Pairwise
      (fun a b => severityRank a.severity ≤ severityRank b.severity) := by
  induction l with
  | nil => simp [insertBySeverity]
  | cons y ys ih =>
    rw [List.pairwise_cons] at hl
    obtain ⟨hy, hys⟩ := hl
    by_cases h : severityRank y.severity < severityRank x.severity
    · rw [insertBySeverity, if_pos h, List.pairwise_cons]
      refine ⟨?_, ih hys⟩
      intro z hz
      rcases (mem_insertBySeverity x z ys).1 hz with rfl | hz2
      · exact Nat.le_of_lt h
      · exact hy z hz2
    · rw [insertBySeverity, if_neg h, List.pairwise_cons]
      refine ⟨?_, List.pairwise_cons.mpr ⟨hy, hys⟩⟩
      intro z hz
      rcases List.mem_cons.mp hz with rfl | hz2
      · exact Nat.le_of_not_lt h
      · exact le_trans (Nat.le_of_not_lt h) (hy z hz2)

/-- The embedded stable sort is sorted by severity rank. -/
theorem pairwise_sortIssues (l : List Issue) :
    (sortIssuesBySeverity l).Pairwise
      (fun a b => severityRank a.severity ≤ severityRank b.severity) := by
  induction l with
  | nil => simp [sortIssuesBySeverity]
  | cons x xs ih => exact pairwise_insertBySeverity x (sortIssuesBySeverity xs) ih

/-- Filtering one severity class through a severity insertion is the same as
filtering the element consed in front (stability of one insertion: the
element never crosses an equal-severity element). -/
theorem filter_insertBySeverity (x : Issue) (l : List Issue) (sev : IssueSeverity) :
    (insertBySeverity x l).filter (fun i => i.severity = sev)
      = (x :: l).filter (fun i => i.severity = sev) := by
  induction l with
  | nil => simp [insertBySeverity]
  | cons y ys ih =>
    by_cases h : severityRank y.severity < severityRank x.severity
    · rw [insertBySeverity, if_pos h]
      by_cases hx : x.severity = sev
      · have hy : ¬ y.severity = sev := by
          intro hyv
          have heq : severityRank y.severity = severityRank x.severity := by
            rw [hyv, hx]
          rw [heq] at h
          exact lt_irrefl _ h
        simp [List.filter_cons, hx, hy, ih]
      · simp [List.filter_cons, hx, ih]
    · rw [insertBySeverity, if_neg h]

/-- The embedded stable sort preserves the relative order of equal-severity
issues: each severity class filters out of the sorted list exactly as it was
emitted. -/
theorem filter_sortIssues (l : List Issue) (sev : IssueSeverity) :
    (sortIssuesBySeverity l).filter (fun i => i.severity = sev)
      = l.filter (fun i => i.severity = sev) := by
  induction l with
  | nil => rfl
  | cons x xs ih =>
    rw [sortIssuesBySeverity, filter_insertBySeverity]
    simp [List.filter_cons, ih]

/-- Claim C3: for every snapshot, the issue list returned by
`analyze_for_issues` is sorted by severity (critical before high before
medium before low, i.e. non-decreasing severity rank), and each severity
class appears in exactly the order in which the rules emitted it
(`preSortIssues` is the emission order), i.e. the sort is stable. -/
theorem c3_sorted_and_stable (strHash : String → Int) (now : Int)
    (s : SystemSnapshot) :
    (analyze_for_issues strHash now s).Pairwise
      (fun a b => severityRank a.severity ≤ severityRank b.severity)
    ∧ ∀ sev : IssueSeverity,
        (analyze_for_issues strHash now s).filter (fun i => i.severity = sev)
          = (preSortIssues strHash now s).filter (fun i => i.severity = sev) :=
  ⟨pairwise_sortIssues (preSortIssues strHash now s),
   fun sev => filter_sortIssues (preSortIssues strHash now s) sev⟩

/-- Claim C4 counterexample: on the spec scenario snapshot (one storage
device 97 percent full, system drive, HDD) the analysis emits no
critical-severity issue at all (the nearly-full issue is high), and on a
device 87 percent full (between the claimed 85 and 90 percent thresholds)
the analysis emits no issue at all. -/
theorem c4_counterexample :
    (analyze_for_issues zeroHash 0 scenarioSnapshot).filter
        (fun i => i.severity = IssueSeverity.critical) = []
    ∧ analyze_for_issues zeroHash 0 snapshot87 = [] := by
  refine ⟨?_, ?_⟩
  · norm_num [analyze_for_issues, preSortIssues, hardwareIssues, memorySection,
      driveIssues, gpuDriverIssues, cpuTempSection, prereqSection,
      processSection, networkSection, benchSection, driverSection,
      eventSection, launcherSection, sortIssuesBySeverity, insertBySeverity,
      severityRank, scenarioSnapshot, emptySnapshot, emptyHardware,
      scenarioDrive, issueHddSystem, issueDriveNearlyFull,
      List.filter_cons]
    decide
  · norm_num [analyze_for_issues, preSortIssues, hardwareIssues, memorySection,
      driveIssues, gpuDriverIssues, cpuTempSection, prereqSection,
      processSection, networkSection, benchSection, driverSection,
      eventSection, launcherSection, sortIssuesBySeverity, insertBySeverity,
      severityRank, snapshot87, emptySnapshot, emptyHardware,
      drive87, issueHddSystem, issueDriveNearlyFull,
      List.filter_cons]

/-- Claim C4, amended: for every storage device with positive total
capacity, the analysis emits a single high-severity drive-nearly-full issue
exactly when the device is more than 90 percent full, and nothing otherwise
(there is no critical tier and no separate 85-90 percent tier; every
storage-rule issue has severity high); on the scenario snapshot the output
is the high-severity system-drive-on-HDD issue followed by the high-severity
drive-nearly-full issue. -/
theorem c4_amended (d : StorageInfo) (hpos : 0 < d.total_gb) :
    (90 < (d.total_gb - d.free_gb) / d.total_gb * 100 →
        driveIssues d
          = (if d.is_system_drive ∧ d.type = "HDD" then [issueHddSystem] else [])
            ++ [issueDriveNearlyFull d])
    ∧ ((d.total_gb - d.free_gb) / d.total_gb * 100 ≤ 90 →
        driveIssues d
          = (if d.is_system_drive ∧ d.type = "HDD" then [issueHddSystem] else []))
    ∧ (∀ i ∈ driveIssues d, i.severity = IssueSeverity.high)
    ∧ (analyze_for_issues zeroHash 0 scenarioSnapshot).map
          (fun i => (i.id, i.severity))
        = [(("hw_hdd_system"), IssueSeverity.high),
           (("hw_disk_full_" ++ pyTake scenarioDrive.model 20), IssueSeverity.high)] := by
  refine ⟨?_, ?_, ?_, ?_⟩
  · intro h
    simp [driveIssues, hpos, h]
  · intro h
    simp [driveIssues, hpos, not_lt.mpr h]
  · intro i hi
    simp only [driveIssues] at hi
    rcases List.mem_append.mp hi with hi1 | hi2
    · split_ifs at hi1 <;> simp_all [issueHddSystem]
    · split_ifs at hi2 <;> simp_all [issueDriveNearlyFull]
  · norm_num [analyze_for_issues, preSortIssues, hardwareIssues, memorySection,
      driveIssues, gpuDriverIssues, cpuTempSection, prereqSection,
      processSection, networkSection, benchSection, driverSection,
      eventSection, launcherSection, sortIssuesBySeverity, insertBySeverity,
      severityRank, scenarioSnapshot, emptySnapshot, emptyHardware,
      scenarioDrive, issueHddSystem, issueDriveNearlyFull]

/-- Witness for the amended claim C4 at the scenario device. -/
theorem c4_amended_witness :
    (0:ℚ) < scenarioDrive.total_gb
    ∧ (∀ i ∈ driveIssues scenarioDrive, i.severity = IssueSeverity.high) :=
  ⟨by norm_num [scenarioDrive],
   (c4_amended scenarioDrive (by norm_num [scenarioDrive])).2.2.1⟩

/-- Claim C5 (code bug): at a measured sequential write speed of 30 MB/s the
analysis emits the medium-severity issue, not the claimed high-severity one,
because the `elif write_speed < 50` escalation branch sits after the
`write_speed < 100` branch and is therefore unreachable: no input can ever
produce the high-severity disk issue. -/
theorem c5_dead_high_branch :
    (analyze_for_issues zeroHash 0 benchSnapshot30).map (fun i => (i.id, i.severity))
        = [(("bench_slow_disk_write"), IssueSeverity.medium)]
    ∧ ∀ bench : BenchmarkResult, issueVerySlowDisk ∉ benchResultIssues bench := by
  constructor
  · norm_num [analyze_for_issues, preSortIssues, hardwareIssues, memorySection,
      driveIssues, gpuDriverIssues, cpuTempSection, prereqSection,
      processSection, networkSection, benchSection, benchResultIssues,
      driverSection, eventSection, launcherSection, sortIssuesBySeverity,
      insertBySeverity, severityRank, benchSnapshot30, benchSuite30,
      emptySnapshot, emptyHardware, issueSlowDiskWrite]
  · intro bench
    by_cases hA : bench.name = "Disk I/O (Seq)" ∧ ¬ bench.details.has_error
    · simp only [benchResultIssues, if_pos hA]
      by_cases hB : 0 < bench.details.write_speed_mbps.getD 0
          ∧ bench.details.write_speed_mbps.getD 0 < 100
      · simp only [if_pos hB]
        decide
      · by_cases hC : 0 < bench.details.write_speed_mbps.getD 0
            ∧ bench.details.write_speed_mbps.getD 0 < 50
        · exact absurd ⟨hC.1, lt_trans hC.2 (by norm_num)⟩ hB
        · simp [if_neg hB, if_neg hC]
    · simp only [benchResultIssues, if_neg hA]
      exact List.not_mem_nil _

/-- Claim C6 (code bug): `main` constructs the agent with the keyword
argument `quick_mode`, which `DiagnosticAgent.__init__` does not accept, so
the construction raises `TypeError` on every invocation; moreover the fixed
collector sequence of `run_full_diagnostic` contains no Benchmarks collector
that a quick mode could skip. -/
theorem c6_quick_mode_mismatch :
    pyKeywordsBindable diagnosticAgentInitParams mainAgentCallKeywords = false
    ∧ (("quick_mode") ∈ mainAgentCallKeywords)
    ∧ (("quick_mode") ∉ diagnosticAgentInitParams)
    ∧ (("benchmarks") ∉ collectorsUsedList) := by
  decide

/-- Claim C8 (code bug): reading `prerequisites_result` on a default
snapshot, to which the three undeclared attributes were never attached,
raises `AttributeError` before any issue list is produced; once the three
attributes are attached (even holding their empty defaults), the analysis of
the empty snapshot yields no issues and the resulting health score is
exactly 100. -/
theorem c8_empty_snapshot :
    analyzeChecked ⟨false, false, false⟩ zeroHash 0 emptySnapshot
        = .error ("AttributeError: SystemSnapshot object has no attribute prerequisites_result")
    ∧ analyze_for_issues zeroHash 0 emptySnapshot = []
    ∧ (mkDiagnosticResult emptySnapshot
          (analyze_for_issues zeroHash 0 emptySnapshot)).health_score = 100 :=
  ⟨rfl, rfl, rfl⟩

/-- Claim C9 counterexample: on a snapshot holding one GPU with a parseable
driver date, the analysis emits one issue when the current date is 200 days
later and none when it is the same day: the issue lists of two calls on the
same snapshot value differ when the wall clock differs, so the result does
depend on wall-clock time. -/
theorem c9_time_counterexample :
    (analyze_for_issues zeroHash 200 gpuSnapshot).length = 1
    ∧ (analyze_for_issues zeroHash 0 gpuSnapshot).length = 0
    ∧ analyze_for_issues zeroHash 200 gpuSnapshot
        ≠ analyze_for_issues zeroHash 0 gpuSnapshot := by
  refine ⟨by decide, by decide, ?_⟩
  intro h
  have hlen := congrArg List.length h
  rw [show (analyze_for_issues zeroHash 200 gpuSnapshot).length = 1 from by decide,
      show (analyze_for_issues zeroHash 0 gpuSnapshot).length = 0 from by decide] at hlen
  exact one_ne_zero hlen

/-- The GPU driver-age rule contributes nothing when no GPU carries a
parseable driver date, whatever the current date is. -/
theorem gpus_flatMap_no_date (now : Int) (gpus : List GPUInfo)
    (h : ∀ g ∈ gpus, g.driver_date = none) :
    gpus.flatMap (gpuDriverIssues now) = [] := by
  induction gpus with
  | nil => rfl
  | cons g gs ih =>
    have hg := h g (List.mem_cons_self g gs)
    have hrest : ∀ x ∈ gs, x.driver_date = none :=
      fun x hx => h x (List.mem_cons_of_mem g hx)
    simp [gpuDriverIssues, hg, ih hrest]

/-- Claim C9, amended: `analyze_for_issues` is a deterministic pure function
of the snapshot together with the ambient current date (and the per-process
string hash used only inside network-issue ids): whenever no GPU carries a
parseable driver date, the result is independent of the current date; the
GPU driver-age rule reads the wall clock, so snapshots with a dated GPU
driver can produce different issue lists at different dates (see the
counterexample), and the snapshot itself is never mutated. -/
theorem c9_amended (strHash : String → Int) (a b : Int) (s : SystemSnapshot)
    (h : ∀ g ∈ s.hardware.gpus, g.driver_date = none) :
    analyze_for_issues strHash a s = analyze_for_issues strHash b s := by
  unfold analyze_for_issues preSortIssues hardwareIssues
  rw [gpus_flatMap_no_date a s.hardware.gpus h,
      gpus_flatMap_no_date b s.hardware.gpus h]

/-- Witness for the amended claim C9 at the empty snapshot. -/
theorem c9_amended_witness :
    (∀ g ∈ emptySnapshot.hardware.gpus, g.driver_date = none)
    ∧ analyze_for_issues zeroHash 5 emptySnapshot
        = analyze_for_issues zeroHash 7 emptySnapshot :=
  ⟨by simp [emptySnapshot, emptyHardware],
   c9_amended zeroHash 5 7 emptySnapshot (by simp [emptySnapshot, emptyHardware])⟩

/-- Claim C10: every disk-usage and memory-usage percentage computed during
analysis sits under a positive-total-capacity guard, so a storage device or
memory record with zero total capacity produces no usage-based issue: the
storage rule of the analysis engine and the agent-side storage analyzer emit
at most the (non-usage-based) HDD-system-drive issue, and the agent-side
memory analyzer emits nothing. -/
theorem c10_zero_capacity (d : StorageInfo) (m : MemoryInfo)
    (hd : d.total_gb = 0) (hm : m.total_gb = 0) :
    driveIssues d
        = (if d.is_system_drive ∧ d.type = "HDD" then [issueHddSystem] else [])
    ∧ agent_analyze_storage d
        = (if d.is_system_drive ∧ d.type = "HDD" then
            [{ id := "", title := "System Drive on HDD",
               category := .performance, severity := .medium,
               confidence := 0.9 }]
           else [])
    ∧ agent_analyze_memory m = [] := by
  refine ⟨?_, ?_, ?_⟩
  · norm_num [driveIssues, hd]
  · norm_num [agent_analyze_storage, hd]
  · norm_num [agent_analyze_memory, hm]

/-- Witness for claim C10 at a concrete zero-capacity drive and memory
record. -/
theorem c10_zero_capacity_witness :
    zeroCapacityDrive.total_gb = 0
    ∧ zeroCapacityMemory.total_gb = 0
    ∧ agent_analyze_memory zeroCapacityMemory = [] :=
  ⟨rfl, rfl, (c10_zero_capacity zeroCapacityDrive zeroCapacityMemory rfl rfl).2.2⟩

/-- `DiagnosticResult` construction keeps the snapshot it was given. -/
theorem mkDiagnosticResult_snapshot (snap : SystemSnapshot) (issues : List Issue) :
    (mkDiagnosticResult snap issues).snapshot = snap :=
  foldl_tally_snapshot issues _

/-- Claim C7 (code bug): a fault injected into the event-log collector is
isolated (the scan completes, the event slot holds the declared empty
default, the error list is non-empty, and every other collector slot is
unaffected), and a fault-free run completes with an empty error list; but a
fault injected into the Windows-info collector aborts the whole scan: its
`except` clause falls through to `WindowsInfo(**windows_data)` with the
required constructor keys missing, so the handler itself raises `TypeError`
and `run_full_diagnostic` returns no `DiagnosticResult`. -/
theorem c7_collector_fault_isolation :
    scanRaised (run_full_diagnostic envWindowsFault) = true
    ∧ (resultSnapshot (run_full_diagnostic envEventFault)).map
          (fun snap => (snap.event_summary, snap.errors_encountered,
            snap.hardware, snap.driver_result, snap.launcher_result,
            snap.network_result))
        = some (some defaultEventLogSummary,
            [("Event log collection error: log access denied")],
            baseHardware, some baseDrivers, some baseLaunchers,
            some baseNetwork)
    ∧ (resultSnapshot (run_full_diagnostic baseEnv)).map
          (fun snap => snap.errors_encountered) = some [] := by
  refine ⟨rfl, ?_, ?_⟩
  · simp [run_full_diagnostic, _collect_windows_info, _collect_hardware_info,
      _collect_event_logs, _check_drivers, _detect_launchers,
      _run_network_diagnostics, envEventFault, baseEnv, resultSnapshot,
      mkDiagnosticResult_snapshot]
  · simp [run_full_diagnostic, _collect_windows_info, _collect_hardware_info,
      _collect_event_logs, _check_drivers, _detect_launchers,
      _run_network_diagnostics, baseEnv, resultSnapshot,
      mkDiagnosticResult_snapshot]
